import Mathlib

/-!
Shallow embedding of the order-management service in `src/index.js`
(products / orders / bills over a Sequelize store, Express route handlers).

Modelling conventions:
* JavaScript numbers are modelled as exact rationals (`ℚ`); all stored
  prices, weights and identifiers in this program are integers (`Sequelize.INTEGER`
  columns), so the only non-integer arithmetic is the discount multiply
  `totalAmount * 0.95`, modelled exactly as `* (95 / 100) : ℚ`.
* `Math.round x` is `⌊x + 1/2⌋` (round half toward positive infinity),
  which is MDN's documented semantics and agrees with Mathlib's `round`.
* The external store (Sequelize) is a record of lists; `create` appends,
  `findAll {where id IN ids}` is a filter over the product table, `findById`
  is `List.find?`, `update` rewrites the matching row.  Model
  `defaultValue`s (`status := "pending"`, `shipment_amount := 25` on the
  `order` model) apply exactly when the corresponding field is not supplied
  to `create`, as in Sequelize.
* The Joi schema `product_list: Joi.array().items(Joi.number()).required()`
  is modelled on an input that is either absent / not an array (`none`) or a
  list of raw values (`some raw`), each raw value a JS number or a string.
  A string passes `Joi.number()` when it reads as a signed decimal numeral
  (digits with an optional single decimal point); exotic numeric formats
  (exponents, hex, surrounding whitespace) are outside the model.
* `parseInt(id, 0)` (radix 0 behaves as radix 10 here) takes the leading
  decimal-digit prefix after an optional sign and is NaN (modelled `none`)
  when that prefix is empty; NaN identifiers match no catalog row.
-/

namespace OrderService

/-- A raw entry of the `product_list` request field: a JS number or a string. -/
inductive RawVal where
  | num (n : Int)
  | str (s : String)
deriving DecidableEq, Repr

/-- A row of the `product` table (`Product` model: `name`, `price`, `weight`,
with the store-assigned `id`). -/
structure Product where
  id : Int
  name : String
  price : Int
  weight : Int
deriving DecidableEq, Repr

/-- A row of the `order` table (`Order` model) together with the
`product_list` reference the handler attaches to the created record. -/
structure OrderRec where
  id : Int
  status : String
  shipment_amount : ℚ
  total_amount : ℚ
  total_weight : ℚ
  product_list : List RawVal
deriving DecidableEq, Repr

/-- A row of the `bill` table (`Bill` model: `total_amount`). -/
structure BillRec where
  total_amount : ℚ
deriving DecidableEq, Repr

/-- The external store: the three tables plus the next order identifier. -/
structure Store where
  products : List Product
  orders : List OrderRec
  bills : List BillRec
  nextOrderId : Int
deriving DecidableEq, Repr

/-- Scan of an unsigned decimal numeral: digits with at most one decimal
point and at least one digit overall.  `seenDigit` / `seenPoint` record what
the scan has already consumed. -/
def scanDecimal : List Char → Bool → Bool → Bool
  | [], seenDigit, _ => seenDigit
  | c :: rest, seenDigit, seenPoint =>
    if c.isDigit then scanDecimal rest true seenPoint
    else if c = '.' && !seenPoint then scanDecimal rest seenDigit true
    else false

/-- An unsigned decimal numeral, with an optional single decimal point
(`"12"`, `"12.5"`, `".5"`, `"12."`). -/
def decimalBody (s : String) : Bool :=
  scanDecimal s.toList false false

/-- Does a raw `product_list` entry satisfy `Joi.number()` (with Joi's
default conversion of numeric strings)?  Numbers always do; a string does
when it is a signed decimal numeral. -/
def joiNumberOk : RawVal → Bool
  | .num _ => true
  | .str s =>
    match s.toList with
    | '-' :: rest => decimalBody (String.mk rest)
    | _ => decimalBody s

/-- The leading decimal-digit prefix of a character list. -/
def leadingDigits : List Char → List Char
  | [] => []
  | c :: rest => if c.isDigit then c :: leadingDigits rest else []

/-- Value of a digit list read as a base-10 numeral. -/
def digitsToNat (l : List Char) : Nat :=
  l.foldl (fun a c => a * 10 + (c.toNat - 48)) 0

/-- Model of `parseInt(v, 0)`: radix 0 is treated as 10 for these inputs; the result
is the signed value of the leading digit prefix, or NaN (`none`) when no
digit leads. -/
def parseIntJS : RawVal → Option Int
  | .num n => some n
  | .str s =>
    match s.toList with
    | '-' :: rest =>
      let ds := leadingDigits rest
      if ds.isEmpty then none else some (-(digitsToNat ds : Int))
    | l =>
      let ds := leadingDigits l
      if ds.isEmpty then none else some (digitsToNat ds : Int)

/-- Embeds `Product.findAll` with `where: id Op.in ids` for the coerced
identifier list: the catalog rows whose `id` occurs among the parse
results (NaN entries match nothing). -/
def resolveProducts (st : Store) (raw : List RawVal) : List Product :=
  st.products.filter (fun p => (raw.map parseIntJS).contains (some p.id))

/-- Embeds `productListData.map(p => p.weight).reduce((prev, cur) => prev + cur, 0)`. -/
def sumWeights (items : List Product) : Int :=
  (items.map (fun p => p.weight)).foldl (· + ·) 0

/-- Embeds `productListData.map(p => p.price).reduce((prev, cur) => prev + cur, 0)`. -/
def sumPrices (items : List Product) : Int :=
  (items.map (fun p => p.price)).foldl (· + ·) 0

/-- Embeds `Math.round`: round half toward positive infinity. -/
def jsMathRound (x : ℚ) : Int := ⌊x + 1 / 2⌋

def SHIPMENT_PRICE_STEP : Int := 25

def SHIPMENT_WEIGHT_STEP : Int := 10

/-- Embeds `SHIPMENT_PRICE_STEP * Math.round(orderTotalWeight / SHIPMENT_WEIGHT_STEP)`. -/
def shipmentPrice (w : Int) : Int :=
  SHIPMENT_PRICE_STEP * jsMathRound ((w : ℚ) / (SHIPMENT_WEIGHT_STEP : ℚ))

def DISCOUNT_THRESHOLD : ℚ := 1000

/-- The discount step: `if (totalAmount > DISCOUNT_THRESHOLD) totalAmount *= 0.95`. -/
def applyDiscount (t : ℚ) : ℚ :=
  if t > DISCOUNT_THRESHOLD then t * (95 / 100) else t

/-- Fields passed to `Order.create`; `status` and `shipment_amount` are
optional because the model declares `defaultValue`s for them. -/
structure OrderFields where
  status : Option String
  shipment_amount : Option ℚ
  total_amount : ℚ
  total_weight : ℚ
  product_list : List RawVal

/-- Embeds `Order.create(fields)`: assign the next identifier, fill the model
defaults (`status := "pending"`, `shipment_amount := 25`) for unsupplied
fields, and append the row. -/
def createOrder (st : Store) (f : OrderFields) : OrderRec × Store :=
  let o : OrderRec :=
    { id := st.nextOrderId
      status := f.status.getD "pending"
      shipment_amount := f.shipment_amount.getD 25
      total_amount := f.total_amount
      total_weight := f.total_weight
      product_list := f.product_list }
  (o, { st with orders := st.orders ++ [o], nextOrderId := st.nextOrderId + 1 })

/-- Outcome of `POST /orders`: a 400 with the Joi error details, a 400 with
`{ message: "Unknown products", context: { key: "product_list" } }`, or a 201
with the created order. -/
inductive CreateOutcome where
  | validationError
  | unknownRef (message : String) (key : String)
  | created (o : OrderRec)
deriving DecidableEq, Repr

/-- The `POST /orders` handler.  `body` is `none` when `product_list` is
missing or not an array, otherwise the list of raw entries. -/
def postOrders (st : Store) (body : Option (List RawVal)) : CreateOutcome × Store :=
  match body with
  | none => (.validationError, st)
  | some raw =>
    if raw.all joiNumberOk then
      let productList := resolveProducts st raw
      if productList.length = 0 then
        (.unknownRef "Unknown products" "product_list", st)
      else
        let orderTotalWeight := sumWeights productList
        let orderProductListPrice := sumPrices productList
        let orderShipmentPrice := shipmentPrice orderTotalWeight
        let totalAmount :=
          applyDiscount ((orderProductListPrice : ℚ) + (orderShipmentPrice : ℚ))
        let res := createOrder st
          { status := none
            shipment_amount := some (orderShipmentPrice : ℚ)
            total_amount := totalAmount
            total_weight := (orderTotalWeight : ℚ)
            product_list := raw }
        (.created res.1, res.2)
    else (.validationError, st)

/-- Outcome of `PUT /orders/:id/status`: 404, 400, or 200. -/
inductive StatusOutcome where
  | notFound
  | invalidStatus
  | ok
deriving DecidableEq, Repr

/-- The recognized status strings: `["pending", "paid", "cancelled"]`. -/
def ORDER_STA : List String := ["pending", "paid", "cancelled"]

/-- The `PUT /orders/:id/status` handler: 404 when `findById` misses, 400
when the requested status is unrecognized; otherwise create a Bill carrying
the order's stored `total_amount` when the requested status is `"paid"`,
then overwrite the order's status. -/
def putOrderStatus (st : Store) (id : Int) (status : String) : StatusOutcome × Store :=
  match st.orders.find? (fun o => o.id == id) with
  | none => (.notFound, st)
  | some order =>
    if status ∈ ORDER_STA then
      let st1 :=
        if status = "paid" then
          { st with bills := st.bills ++ [{ total_amount := order.total_amount }] }
        else st
      let st2 := { st1 with
        orders := st1.orders.map
          (fun o => if o.id == id then { o with status := status } else o) }
      (.ok, st2)
    else (.invalidStatus, st)

/-! ### Helper lemmas -/

theorem foldl_add_eq_sum (l : List Int) (a : Int) : l.foldl (· + ·) a = a + l.sum := by
  induction l generalizing a with
  | nil => simp
  | cons x t ih => simp [List.foldl_cons, ih, List.sum_cons]; ring

theorem sumWeights_eq_sum (items : List Product) :
    sumWeights items = (items.map (fun p => p.weight)).sum := by
  simpa [sumWeights] using foldl_add_eq_sum (items.map (fun p => p.weight)) 0

theorem sumPrices_eq_sum (items : List Product) :
    sumPrices items = (items.map (fun p => p.price)).sum := by
  simpa [sumPrices] using foldl_add_eq_sum (items.map (fun p => p.price)) 0

theorem jsMathRound_eq_round (x : ℚ) : jsMathRound x = round x :=
  (round_eq x).symm

/-- The record the `POST /orders` handler passes to `Order.create` on the
success path, with the `status` default filled in. -/
def createdOrder (st : Store) (raw : List RawVal) : OrderRec :=
  { id := st.nextOrderId
    status := "pending"
    shipment_amount := ((shipmentPrice (sumWeights (resolveProducts st raw)) : Int) : ℚ)
    total_amount := applyDiscount (((sumPrices (resolveProducts st raw) : Int) : ℚ) +
      ((shipmentPrice (sumWeights (resolveProducts st raw)) : Int) : ℚ))
    total_weight := ((sumWeights (resolveProducts st raw) : Int) : ℚ)
    product_list := raw }

theorem postOrders_created_shape (st : Store) (raw : List RawVal) (o : OrderRec)
    (h : (postOrders st (some raw)).1 = CreateOutcome.created o) :
    o = createdOrder st raw ∧
    (postOrders st (some raw)).2 =
      { st with orders := st.orders ++ [o], nextOrderId := st.nextOrderId + 1 } := by
  by_cases hv : raw.all joiNumberOk
  · by_cases hl : (resolveProducts st raw).length = 0
    · simp [postOrders, hv, hl] at h
    · have ho : o = createdOrder st raw := by
        simp [postOrders, hv, hl, createOrder, createdOrder] at h
        exact h.symm
      refine ⟨ho, ?_⟩
      simp [postOrders, hv, hl, createOrder, createdOrder, ho]
  · simp [postOrders, hv] at h

/-! ### Claim theorems -/

/-- C1: for every non-empty list of resolved line items with non-negative
integer weights, order creation computes `total_weight` as the sum of the
item weights and `shipment_amount` as `25 * round (total_weight / 10)`,
where `round` is round-half-up (Mathlib's `round x = ⌊x + 1/2⌋`). -/
theorem claim_C1_shipment_pricing (st : Store) (raw : List RawVal) (o : OrderRec)
    (h : (postOrders st (some raw)).1 = CreateOutcome.created o)
    (_hw : ∀ p ∈ resolveProducts st raw, 0 ≤ p.weight) :
    o.total_weight = ((((resolveProducts st raw).map (fun p => p.weight)).sum : Int) : ℚ) ∧
    o.shipment_amount = ((25 * round (o.total_weight / 10) : Int) : ℚ) := by
  obtain ⟨ho, -⟩ := postOrders_created_shape st raw o h
  subst ho
  refine ⟨by simp [createdOrder, sumWeights_eq_sum], ?_⟩
  simp only [createdOrder, shipmentPrice, SHIPMENT_PRICE_STEP, SHIPMENT_WEIGHT_STEP,
    jsMathRound_eq_round]
  norm_num

/-- A one-product catalog (price 100, weight 5) used as concrete input. -/
def w1Store : Store :=
  { products := [{ id := 1, name := "a", price := 100, weight := 5 }],
    orders := [], bills := [], nextOrderId := 1 }

/-- The order `POST /orders` creates from `w1Store` on input `[1]`. -/
def w1Order : OrderRec :=
  { id := 1, status := "pending", shipment_amount := 25, total_amount := 125,
    total_weight := 5, product_list := [RawVal.num 1] }

/-- C1 witness: a catalog item of weight 5 and price 100; the resolved
weight sum is 5 and the computed shipment is `25 * round (5/10) = 25`
(round-half-up sends `1/2` to `1`). -/
theorem claim_C1_shipment_pricing_witness :
    (postOrders w1Store (some [RawVal.num 1])).1 = CreateOutcome.created w1Order ∧
    w1Order.total_weight =
      ((((resolveProducts w1Store [RawVal.num 1]).map (fun p => p.weight)).sum : Int) : ℚ) ∧
    w1Order.shipment_amount = ((25 * round (w1Order.total_weight / 10) : Int) : ℚ) := by
  have hpost : (postOrders w1Store (some [RawVal.num 1])).1 = CreateOutcome.created w1Order := by
    norm_num [postOrders, resolveProducts, createOrder, applyDiscount, shipmentPrice,
      jsMathRound, SHIPMENT_PRICE_STEP, SHIPMENT_WEIGHT_STEP, DISCOUNT_THRESHOLD,
      sumWeights, sumPrices, w1Store, w1Order, joiNumberOk, parseIntJS]
  have h := claim_C1_shipment_pricing w1Store [RawVal.num 1] w1Order hpost (by decide)
  exact ⟨hpost, h.1, h.2⟩

/-- C2: for every successful order creation, `total_amount` is the sum of
the resolved item prices plus the shipment amount when that sum is at most
1000, and `95/100` of that sum when it is strictly greater than 1000. -/
theorem claim_C2_discount (st : Store) (raw : List RawVal) (o : OrderRec)
    (h : (postOrders st (some raw)).1 = CreateOutcome.created o) :
    (((((resolveProducts st raw).map (fun p => p.price)).sum : Int) : ℚ) + o.shipment_amount ≤ 1000 →
      o.total_amount =
        ((((resolveProducts st raw).map (fun p => p.price)).sum : Int) : ℚ) + o.shipment_amount) ∧
    (1000 < ((((resolveProducts st raw).map (fun p => p.price)).sum : Int) : ℚ) + o.shipment_amount →
      o.total_amount =
        (95 / 100) * (((((resolveProducts st raw).map (fun p => p.price)).sum : Int) : ℚ) +
          o.shipment_amount)) := by
  obtain ⟨ho, -⟩ := postOrders_created_shape st raw o h
  subst ho
  simp only [createdOrder, applyDiscount, DISCOUNT_THRESHOLD, sumPrices_eq_sum]
  constructor
  · intro hle
    rw [if_neg (not_lt.mpr hle)]
  · intro hgt
    rw [if_pos hgt]
    ring

/-- A two-product catalog rich enough to cross the discount threshold. -/
def w2Store : Store :=
  { products := [{ id := 1, name := "a", price := 1001, weight := 0 }],
    orders := [], bills := [], nextOrderId := 1 }

/-- The order `POST /orders` creates from `w2Store` on input `[1]`:
subtotal 1001, shipment 0, so the discount fires and
`total_amount = 1001 * 95 / 100 = 950.95`. -/
def w2Order : OrderRec :=
  { id := 1, status := "pending", shipment_amount := 0, total_amount := 19019 / 20,
    total_weight := 0, product_list := [RawVal.num 1] }

/-- C2 witness: subtotal 1001 with shipment 0 crosses the threshold and the
total is `0.95 * 1001 = 950.95`; the no-discount branch is exercised by the
C1 witness order (125 ≤ 1000). -/
theorem claim_C2_discount_witness :
    (postOrders w2Store (some [RawVal.num 1])).1 = CreateOutcome.created w2Order ∧
    (1000 : ℚ) <
      ((((resolveProducts w2Store [RawVal.num 1]).map (fun p => p.price)).sum : Int) : ℚ) +
        w2Order.shipment_amount ∧
    w2Order.total_amount =
      (95 / 100) * (((((resolveProducts w2Store [RawVal.num 1]).map
        (fun p => p.price)).sum : Int) : ℚ) + w2Order.shipment_amount) := by
  have hpost : (postOrders w2Store (some [RawVal.num 1])).1 = CreateOutcome.created w2Order := by
    norm_num [postOrders, resolveProducts, createOrder, applyDiscount, shipmentPrice,
      jsMathRound, SHIPMENT_PRICE_STEP, SHIPMENT_WEIGHT_STEP, DISCOUNT_THRESHOLD,
      sumWeights, sumPrices, w2Store, w2Order, joiNumberOk, parseIntJS]
  have hgt : (1000 : ℚ) <
      ((((resolveProducts w2Store [RawVal.num 1]).map (fun p => p.price)).sum : Int) : ℚ) +
        w2Order.shipment_amount := by
    norm_num [resolveProducts, w2Store, w2Order, parseIntJS]
  exact ⟨hpost, hgt, (claim_C2_discount w2Store [RawVal.num 1] w2Order hpost).2 hgt⟩

/-- C5: every successfully created order has status `"pending"`, carries the
three computed pricing fields, stores the original raw `product_list` input,
and is appended to the order table. -/
theorem claim_C5_created_order_fields (st : Store) (raw : List RawVal) (o : OrderRec)
    (h : (postOrders st (some raw)).1 = CreateOutcome.created o) :
    o.status = "pending" ∧
    o.product_list = raw ∧
    o.total_weight = ((sumWeights (resolveProducts st raw) : Int) : ℚ) ∧
    o.shipment_amount = ((shipmentPrice (sumWeights (resolveProducts st raw)) : Int) : ℚ) ∧
    o.total_amount = applyDiscount (((sumPrices (resolveProducts st raw) : Int) : ℚ) +
      ((shipmentPrice (sumWeights (resolveProducts st raw)) : Int) : ℚ)) ∧
    (postOrders st (some raw)).2.orders = st.orders ++ [o] := by
  obtain ⟨ho, hst⟩ := postOrders_created_shape st raw o h
  refine ⟨?_, ?_, ?_, ?_, ?_, ?_⟩ <;> simp [ho, hst, createdOrder]

/-- C5 witness: the concrete creation of `w1Order` from `w1Store` exhibits
all six conjuncts. -/
theorem claim_C5_created_order_fields_witness :
    w1Order.status = "pending" ∧
    w1Order.product_list = [RawVal.num 1] ∧
    w1Order.total_weight = ((sumWeights (resolveProducts w1Store [RawVal.num 1]) : Int) : ℚ) ∧
    w1Order.shipment_amount =
      ((shipmentPrice (sumWeights (resolveProducts w1Store [RawVal.num 1])) : Int) : ℚ) ∧
    w1Order.total_amount =
      applyDiscount (((sumPrices (resolveProducts w1Store [RawVal.num 1]) : Int) : ℚ) +
        ((shipmentPrice (sumWeights (resolveProducts w1Store [RawVal.num 1])) : Int) : ℚ)) ∧
    (postOrders w1Store (some [RawVal.num 1])).2.orders = w1Store.orders ++ [w1Order] :=
  claim_C5_created_order_fields w1Store [RawVal.num 1] w1Order (by
    norm_num [postOrders, resolveProducts, createOrder, applyDiscount, shipmentPrice,
      jsMathRound, SHIPMENT_PRICE_STEP, SHIPMENT_WEIGHT_STEP, DISCOUNT_THRESHOLD,
      sumWeights, sumPrices, w1Store, w1Order, joiNumberOk, parseIntJS])

/-- A catalog whose single product weighs nothing (price 10, weight 0). -/
def zeroWeightStore : Store :=
  { products := [{ id := 1, name := "p", price := 10, weight := 0 }],
    orders := [], bills := [], nextOrderId := 1 }

/-- Fields for `Order.create` with neither `status` nor `shipment_amount`
supplied: the path on which the model `defaultValue`s apply. -/
def defaultedFields (raw : List RawVal) : OrderFields :=
  { status := none
    shipment_amount := none
    total_amount := 0
    total_weight := 0
    product_list := raw }

/-- C6 counterexample: creating an order from a weight-0 product persists an
order with `total_weight = 0` and `shipment_amount = 0`, not 25.  The
`shipment_amount` column's `defaultValue: 25` never applies on this path
because the handler always supplies the computed value. -/
theorem claim_C6_counterexample :
    ((postOrders zeroWeightStore (some [RawVal.num 1])).2.orders.map
      (fun o => (o.total_weight, o.shipment_amount))) = [((0 : ℚ), (0 : ℚ))] ∧
    (0 : ℚ) ≠ 25 := by
  constructor
  · norm_num [postOrders, resolveProducts, createOrder, applyDiscount, shipmentPrice,
      jsMathRound, SHIPMENT_PRICE_STEP, SHIPMENT_WEIGHT_STEP, DISCOUNT_THRESHOLD,
      sumWeights, sumPrices, zeroWeightStore, joiNumberOk, parseIntJS]
  · norm_num

/-- C6 as amended: for every order whose pricing is computed with zero total
weight, the persisted `shipment_amount` is 0 (`25 * round 0 = 0`); the
model-level default of 25 is only used when `shipment_amount` is not
supplied to `Order.create`, which the creation handler always does. -/
theorem claim_C6_amended_zero_weight (st : Store) (raw : List RawVal) (o : OrderRec)
    (h : (postOrders st (some raw)).1 = CreateOutcome.created o)
    (h0 : o.total_weight = 0) :
    o.shipment_amount = 0 ∧
    (createOrder st (defaultedFields raw)).1.shipment_amount = 25 := by
  obtain ⟨ho, -⟩ := postOrders_created_shape st raw o h
  subst ho
  simp only [createdOrder] at h0 ⊢
  have hw : sumWeights (resolveProducts st raw) = 0 := by exact_mod_cast h0
  rw [hw]
  refine ⟨?_, rfl⟩
  norm_num [shipmentPrice, jsMathRound, SHIPMENT_PRICE_STEP, SHIPMENT_WEIGHT_STEP]

/-- C6 amended witness: the zero-weight creation from `zeroWeightStore`. -/
theorem claim_C6_amended_zero_weight_witness :
    ((postOrders zeroWeightStore (some [RawVal.num 1])).2.orders.map
        (fun o => o.shipment_amount) = [(0 : ℚ)] ∧
      (createOrder zeroWeightStore (defaultedFields [RawVal.num 1])).1.shipment_amount = 25) := by
  have hpost : (postOrders zeroWeightStore (some [RawVal.num 1])).1 =
      CreateOutcome.created
        { id := 1, status := "pending", shipment_amount := 0, total_amount := 10,
          total_weight := 0, product_list := [RawVal.num 1] } := by
    norm_num [postOrders, resolveProducts, createOrder, applyDiscount, shipmentPrice,
      jsMathRound, SHIPMENT_PRICE_STEP, SHIPMENT_WEIGHT_STEP, DISCOUNT_THRESHOLD,
      sumWeights, sumPrices, zeroWeightStore, joiNumberOk, parseIntJS]
  have h := claim_C6_amended_zero_weight zeroWeightStore [RawVal.num 1]
    { id := 1, status := "pending", shipment_amount := 0, total_amount := 10,
      total_weight := 0, product_list := [RawVal.num 1] } hpost rfl
  refine ⟨?_, h.2⟩
  have horders : (postOrders zeroWeightStore (some [RawVal.num 1])).2.orders =
      [{ id := 1, status := "pending", shipment_amount := 0, total_amount := 10,
         total_weight := 0, product_list := [RawVal.num 1] }] := by
    norm_num [postOrders, resolveProducts, createOrder, applyDiscount, shipmentPrice,
      jsMathRound, SHIPMENT_PRICE_STEP, SHIPMENT_WEIGHT_STEP, DISCOUNT_THRESHOLD,
      sumWeights, sumPrices, zeroWeightStore, joiNumberOk, parseIntJS]
  rw [horders]
  simp

theorem resolveProducts_nil (st : Store) : resolveProducts st [] = [] := by
  unfold resolveProducts
  induction st.products with
  | nil => rfl
  | cons p t ih => simp [List.filter, ih]

/-- C4 counterexample: an empty `product_list` passes the Joi schema
(`Joi.array().items(Joi.number()).required()` has no `.min(1)`), resolves to
no products, and therefore fails with the unknown-reference 400, not the
schema `ValidationError` the claim asserts. -/
theorem claim_C4_counterexample :
    (postOrders { products := [], orders := [], bills := [], nextOrderId := 1 }
        (some [])).1 = CreateOutcome.unknownRef "Unknown products" "product_list" ∧
    (postOrders { products := [], orders := [], bills := [], nextOrderId := 1 }
        (some [])).1 ≠ CreateOutcome.validationError := by
  constructor <;> decide

/-- C4 as amended: an order-creation request with an empty product-list
input passes schema validation and fails with the unknown-reference error
(`"Unknown products"` on field `product_list`); one whose entries are all
invalid (non-numeric) fails with `ValidationError`; in both cases the store
is unchanged, so no Order is persisted. -/
theorem claim_C4_amended_empty_or_invalid (st : Store) (raw : List RawVal) :
    (raw = [] →
      postOrders st (some raw) =
        (CreateOutcome.unknownRef "Unknown products" "product_list", st)) ∧
    (raw ≠ [] → (∀ r ∈ raw, joiNumberOk r = false) →
      postOrders st (some raw) = (CreateOutcome.validationError, st)) := by
  constructor
  · rintro rfl
    simp [postOrders, resolveProducts_nil]
  · intro hne hall
    match raw, hne with
    | r :: rest, _ =>
      have : joiNumberOk r = false := hall r (by simp)
      simp [postOrders, List.all_cons, this]

/-- C4 witness: the empty list against an empty store, and the all-invalid
list `["abc"]` against the same store, with the store unchanged in both. -/
theorem claim_C4_amended_empty_or_invalid_witness :
    postOrders { products := [], orders := [], bills := [], nextOrderId := 1 } (some []) =
      (CreateOutcome.unknownRef "Unknown products" "product_list",
        { products := [], orders := [], bills := [], nextOrderId := 1 }) ∧
    postOrders { products := [], orders := [], bills := [], nextOrderId := 1 }
        (some [RawVal.str "abc"]) =
      (CreateOutcome.validationError,
        { products := [], orders := [], bills := [], nextOrderId := 1 }) :=
  ⟨(claim_C4_amended_empty_or_invalid
      { products := [], orders := [], bills := [], nextOrderId := 1 } []).1 rfl,
   (claim_C4_amended_empty_or_invalid
      { products := [], orders := [], bills := [], nextOrderId := 1 }
      [RawVal.str "abc"]).2 (by decide) (by decide)⟩

/-- C8: when the request body passes schema validation but none of the
coerced identifiers resolve to a catalog product, order creation fails with
the unknown-reference 400 (message `"Unknown products"`, field
`product_list`) and the store is unchanged. -/
theorem claim_C8_unknown_products (st : Store) (raw : List RawVal)
    (hv : raw.all joiNumberOk = true)
    (hr : resolveProducts st raw = []) :
    postOrders st (some raw) =
      (CreateOutcome.unknownRef "Unknown products" "product_list", st) := by
  simp [postOrders, hv, hr]

/-- C8 witness: the catalog holds only product 1, the request references
product 2. -/
theorem claim_C8_unknown_products_witness :
    postOrders w1Store (some [RawVal.num 2]) =
      (CreateOutcome.unknownRef "Unknown products" "product_list", w1Store) :=
  claim_C8_unknown_products w1Store [RawVal.num 2] (by decide) (by decide)

/-- C3: every status-transition request for `"paid"` on an existing order
appends exactly one Bill carrying the order's current stored `total_amount`
and succeeds — with no hypothesis on the order's current status, so the
emission also happens when the order is already `"paid"`. -/
theorem claim_C3_bill_emission (st : Store) (id : Int) (o : OrderRec)
    (h : st.orders.find? (fun o2 => o2.id == id) = some o) :
    (putOrderStatus st id "paid").1 = StatusOutcome.ok ∧
    (putOrderStatus st id "paid").2.bills = st.bills ++ [{ total_amount := o.total_amount }] := by
  simp [putOrderStatus, h, ORDER_STA]

/-- A store holding a single order that is already `"paid"`. -/
def paidStore : Store :=
  { products := [],
    orders := [{ id := 1, status := "paid", shipment_amount := 0, total_amount := 500,
                 total_weight := 0, product_list := [] }],
    bills := [], nextOrderId := 2 }

/-- C3 witness: requesting `"paid"` on an order that is already `"paid"`
still appends a Bill with the stored `total_amount` 500. -/
theorem claim_C3_bill_emission_witness :
    (putOrderStatus paidStore 1 "paid").1 = StatusOutcome.ok ∧
    (putOrderStatus paidStore 1 "paid").2.bills =
      paidStore.bills ++ [{ total_amount := 500 }] :=
  claim_C3_bill_emission paidStore 1
    { id := 1, status := "paid", shipment_amount := 0, total_amount := 500,
      total_weight := 0, product_list := [] } (by decide)

theorem find_after_status_update (l : List OrderRec) (id : Int) (o : OrderRec) (s : String)
    (h : l.find? (fun o2 => o2.id == id) = some o) :
    (l.map (fun o2 => if o2.id == id then { o2 with status := s } else o2)).find?
      (fun o2 => o2.id == id) = some { o with status := s } := by
  induction l with
  | nil => simp at h
  | cons a t ih =>
    by_cases ha : (a.id == id) = true
    · rw [List.find?_cons_of_pos (p := fun (o2 : OrderRec) => o2.id == id) t ha] at h
      have hoa : a = o := by injection h
      subst hoa
      simp only [List.map_cons, if_pos ha]
      exact List.find?_cons_of_pos (p := fun (o2 : OrderRec) => o2.id == id) _
        (by simpa using ha)
    · rw [List.find?_cons_of_neg (p := fun (o2 : OrderRec) => o2.id == id) t ha] at h
      simp only [List.map_cons, if_neg ha]
      rw [List.find?_cons_of_neg (p := fun (o2 : OrderRec) => o2.id == id) _
        (by simpa using ha)]
      exact ih h

/-- C7: for an existing order and any requested status among the three
recognized values, the transition succeeds and the requested value is
persisted as the order's status — with no hypothesis on the current status,
so same-state and backward transitions are accepted alike. -/
theorem claim_C7_unconditional_overwrite (st : Store) (id : Int) (o : OrderRec) (s : String)
    (h : st.orders.find? (fun o2 => o2.id == id) = some o)
    (hs : s ∈ ORDER_STA) :
    (putOrderStatus st id s).1 = StatusOutcome.ok ∧
    (putOrderStatus st id s).2.orders.find? (fun o2 => o2.id == id) =
      some { o with status := s } := by
  have horders : (putOrderStatus st id s).2.orders =
      st.orders.map (fun o2 => if o2.id == id then { o2 with status := s } else o2) := by
    by_cases hp : s = "paid"
    · subst hp
      simp [putOrderStatus, h, ORDER_STA]
    · simp [putOrderStatus, h, hs, hp]
  refine ⟨by simp [putOrderStatus, h, hs], ?_⟩
  rw [horders]
  exact find_after_status_update st.orders id o s h

/-- C7 witness: the backward transition `paid → cancelled` on `paidStore`
succeeds and persists `"cancelled"`. -/
theorem claim_C7_unconditional_overwrite_witness :
    (putOrderStatus paidStore 1 "cancelled").1 = StatusOutcome.ok ∧
    (putOrderStatus paidStore 1 "cancelled").2.orders.find? (fun o2 => o2.id == 1) =
      some { id := 1, status := "cancelled", shipment_amount := 0, total_amount := 500,
             total_weight := 0, product_list := [] } :=
  claim_C7_unconditional_overwrite paidStore 1
    { id := 1, status := "paid", shipment_amount := 0, total_amount := 500,
      total_weight := 0, product_list := [] } "cancelled" (by decide) (by decide)

/-- C9: a status transition fails with the 404 not-found outcome when no
order matches the identifier, fails with the 400 invalid-status outcome when
the requested status is unrecognized, and succeeds for an existing order
with a recognized status. -/
theorem claim_C9_transition_errors (st : Store) (id : Int) (s : String) :
    (st.orders.find? (fun o2 => o2.id == id) = none →
      putOrderStatus st id s = (StatusOutcome.notFound, st)) ∧
    (∀ o, st.orders.find? (fun o2 => o2.id == id) = some o → s ∉ ORDER_STA →
      putOrderStatus st id s = (StatusOutcome.invalidStatus, st)) ∧
    (∀ o, st.orders.find? (fun o2 => o2.id == id) = some o → s ∈ ORDER_STA →
      (putOrderStatus st id s).1 = StatusOutcome.ok) := by
  refine ⟨fun hn => ?_, fun o ho hs => ?_, fun o ho hs => ?_⟩
  · simp [putOrderStatus, hn]
  · simp [putOrderStatus, ho, hs]
  · simp [putOrderStatus, ho, hs]

/-- C9 witness: against `paidStore`, identifier 9 is not found, status
`"refunded"` is rejected as invalid on order 1, and `"cancelled"` on order 1
succeeds. -/
theorem claim_C9_transition_errors_witness :
    putOrderStatus paidStore 9 "paid" = (StatusOutcome.notFound, paidStore) ∧
    putOrderStatus paidStore 1 "refunded" = (StatusOutcome.invalidStatus, paidStore) ∧
    (putOrderStatus paidStore 1 "cancelled").1 = StatusOutcome.ok :=
  ⟨(claim_C9_transition_errors paidStore 9 "paid").1 (by decide),
   (claim_C9_transition_errors paidStore 1 "refunded").2.1
     { id := 1, status := "paid", shipment_amount := 0, total_amount := 500,
       total_weight := 0, product_list := [] } (by decide) (by decide),
   (claim_C9_transition_errors paidStore 1 "cancelled").2.2
     { id := 1, status := "paid", shipment_amount := 0, total_amount := 500,
       total_weight := 0, product_list := [] } (by decide) (by decide)⟩

/-- C10: a failed status transition (not-found or invalid-status outcome)
leaves the whole store unchanged: in particular no Bill is created and the
targeted order keeps its state. -/
theorem claim_C10_failure_atomic (st : Store) (id : Int) (s : String)
    (h : (putOrderStatus st id s).1 = StatusOutcome.notFound ∨
         (putOrderStatus st id s).1 = StatusOutcome.invalidStatus) :
    (putOrderStatus st id s).2 = st := by
  rcases hf : st.orders.find? (fun o2 => o2.id == id) with - | o
  · simp [putOrderStatus, hf]
  · by_cases hs : s ∈ ORDER_STA
    · rcases h with h | h <;> simp [putOrderStatus, hf, hs] at h
    · simp [putOrderStatus, hf, hs]

/-- C10 witness: the rejected `"refunded"` request on `paidStore` leaves the
store exactly as it was. -/
theorem claim_C10_failure_atomic_witness :
    (putOrderStatus paidStore 1 "refunded").2 = paidStore :=
  claim_C10_failure_atomic paidStore 1 "refunded" (Or.inr (by decide))

end OrderService
